import Mathlib

/-!
Verification of the insurance-claim extraction and reconciliation pipeline.

The development shallowly embeds the post-extraction logic of
`src/ai_extractor.py` (field cleaning, the payment-advice status override,
and the financial reconciliation `apply_financial_formulas`) and the
merge/upsert logic of `src/email_reader.py` (`process_single_email`ʼs
store-transition after extraction).

Modeling conventions:
* Python floats are modeled as rationals (the verified properties involve
  only exact arithmetic: additions, subtractions, `max`, comparisons).
* Python strings are Lean `String`s; the lowering / trimming / containment
  helpers are re-implemented over the character list (ASCII-level, which
  covers every string the verified claims mention).
* Timestamps are integers ordered like datetimes.
* A value that can be a string, a number or `None` is a `PyVal`;
  string-or-`None` values are `Option String`.
-/

namespace Insurance

/-- Python `str.lower()` (ASCII-level). -/
def pyLower (s : String) : String := ⟨s.data.map Char.toLower⟩

/-- Python `str.strip()`: drop whitespace from both ends. -/
def pyTrim (s : String) : String :=
  ⟨((s.data.dropWhile Char.isWhitespace).reverse.dropWhile Char.isWhitespace).reverse⟩

/-- Substring occurrence on character lists: `subIn sub s` is true when `sub`
occurs contiguously in `s`. -/
def subIn (sub : List Char) : List Char → Bool
  | [] => sub.isEmpty
  | c :: t => sub.isPrefixOf (c :: t) || subIn sub t

/-- Python substring containment `sub in s`. -/
def pyIn (sub s : String) : Bool := subIn sub.data s.data

/-- Python `len(s)` (number of characters). -/
def pyLen (s : String) : Nat := s.data.length

/-- Python `str.isdigit()` (ASCII digits): non-empty and all characters digits. -/
def pyIsDigit (s : String) : Bool := !s.data.isEmpty && s.data.all Char.isDigit

/-- A Python value held by a financial field of an extracted draft: a string,
a number (floats modeled as rationals), or null/absent. -/
inductive PyVal where
  | str (s : String)
  | num (q : ℚ)
  | none
deriving DecidableEq

/-- Numeric value of a list of decimal digit characters, most significant first
(the accumulating loop of `float` on a digit string). -/
def digitsVal (l : List Char) : ℕ :=
  l.foldl (fun a c => a * 10 + (c.toNat - 48)) 0

/-- Python `float(...)` restricted to strings of digits and dots — the only
strings reaching it inside `apply_financial_formulas` after the `re.sub`
stripping. It succeeds exactly when there is at least one digit and at most
one dot (otherwise `float` raises and the caller substitutes `0.0`). -/
def floatOfDigitsAndDots (l : List Char) : Option ℚ :=
  if (l.count '.') ≤ 1 ∧ l.any Char.isDigit ∧ l.all (fun c => c.isDigit || c == '.') then
    match l.splitOn '.' with
    | [ip] => some ((digitsVal ip : ℚ))
    | [ip, fp] => some ((digitsVal ip : ℚ) + (digitsVal fp : ℚ) / (10 ^ fp.length))
    | _ => Option.none
  else Option.none

/-- `re.sub(r'[^\d.]', '', val)` (ai_extractor.py line 560): keep only digits
and dots. -/
def stripNonDigitDot (s : String) : List Char :=
  s.data.filter (fun c => c.isDigit || c == '.')

/-- The coercion applied to one financial field by step 1 of
`apply_financial_formulas` (ai_extractor.py lines 555-567): a string is
stripped to digits/dots and parsed (`0.0` when empty or unparsable), null
becomes `0.0`, and a number passes through `float(val)` unchanged. -/
def normalizeFinancial (v : PyVal) : ℚ :=
  match v with
  | .str s =>
      let cleaned := stripNonDigitDot s
      if cleaned.isEmpty then 0
      else
        match floatOfDigitsAndDots cleaned with
        | some q => q
        | Option.none => 0
  | .num q => q
  | .none => 0

/-- `clean_none_string` (ai_extractor.py lines 7-15) on string-or-null values:
the literal placeholder tokens (trimmed, lowercased) become null. The input is
returned as given, not trimmed. -/
def clean_none_string (v : Option String) : Option String :=
  match v with
  | Option.none => Option.none
  | some s =>
      if pyLower (pyTrim s) ∈ ["none", "n/a", "null", "unknown", ""] then Option.none
      else some s

/-- The denylist of garbage claim-number tokens (ai_extractor.py line 62). -/
def junk_values : List String :=
  ["erence", "gross", "claim no", "ref no", "remarks", "bill", "invoice", "none",
   "unknown", "null", "details", "sl no", "status"]

/-- `clean_claim_number` (ai_extractor.py lines 52-73) on string inputs. The
guard `if not claim_no or not isinstance(claim_no, str)` returns the input
unchanged for a falsy (empty) string; null and non-string inputs, which that
guard also passes through, are outside this model's domain. -/
def clean_claim_number (claim_no : String) : Option String :=
  if claim_no = "" then some claim_no
  else
    let val := pyLower (pyTrim claim_no)
    if val ∈ junk_values then Option.none
    else if pyLen val < 4 ∧ pyIsDigit val = false then Option.none
    else some (pyTrim claim_no)

/-- The extracted draft fields that `apply_financial_formulas` reads or
rewrites and that the verified claims refer to: the eight financial amounts of
its `financial_fields` list, the claim status (read, never written), and the
claim number (sanitized in step 1b). -/
structure RawDraft where
  approved_amount : PyVal
  settled_amount : PyVal
  rejected_amount : PyVal
  total_bill_amount : PyVal
  claim_amount : PyVal
  patient_payable_amount : PyVal
  balance_amount : PyVal
  outstanding_amount : PyVal
  claim_status : String
  claim_number : Option String
deriving DecidableEq

/-- The same fields after reconciliation: every financial amount is a number. -/
structure RecDraft where
  approved_amount : ℚ
  settled_amount : ℚ
  rejected_amount : ℚ
  total_bill_amount : ℚ
  claim_amount : ℚ
  patient_payable_amount : ℚ
  balance_amount : ℚ
  outstanding_amount : ℚ
  claim_status : String
  claim_number : Option String
deriving DecidableEq

/-- `apply_financial_formulas` (ai_extractor.py lines 541-635) restricted to
the fields of `RawDraft`. Step 1 coerces the eight financial fields; step 1b
sanitizes the claim number (the other text fields and step 2's date
normalization write only fields outside this structure, and no financial field
reads them); step 3 backfills the gross amounts; step 4 applies the
status-conditional formulas; outstanding mirrors the final balance. The step-1
coercions of `patient_payable_amount`, `balance_amount` and
`outstanding_amount` are unconditionally overwritten by rules 2-3 and the
final remap, so they are not bound here. -/
def apply_financial_formulas (d : RawDraft) : RecDraft :=
  let approved := normalizeFinancial d.approved_amount
  let settled := normalizeFinancial d.settled_amount
  let rejected := normalizeFinancial d.rejected_amount
  let total0 := normalizeFinancial d.total_bill_amount
  let claimAmt0 := normalizeFinancial d.claim_amount
  let claim_number :=
    match clean_none_string d.claim_number with
    | Option.none => Option.none
    | some v => clean_claim_number v
  let total :=
    if total0 = 0 then
      if claimAmt0 > 0 then claimAmt0
      else if settled > 0 then settled
      else total0
    else total0
  let claimAmt := if claimAmt0 = 0 then total else claimAmt0
  let status := d.claim_status
  let calculated_rejected := max 0 (total - approved)
  let rejected1 :=
    if rejected = 0 ∨ |rejected - calculated_rejected| > 1 then calculated_rejected
    else rejected
  let payable1 := max 0 (total - approved)
  if status = "Pending" then
    { approved_amount := 0, settled_amount := 0, rejected_amount := 0,
      total_bill_amount := total, claim_amount := claimAmt,
      patient_payable_amount := 0, balance_amount := total,
      outstanding_amount := total, claim_status := status, claim_number := claim_number }
  else if status = "Settled" then
    { approved_amount := approved, settled_amount := settled,
      rejected_amount := rejected1, total_bill_amount := total,
      claim_amount := claimAmt, patient_payable_amount := max 0 (total - settled),
      balance_amount := 0, outstanding_amount := 0,
      claim_status := status, claim_number := claim_number }
  else if status = "Approved" then
    { approved_amount := approved, settled_amount := settled,
      rejected_amount := rejected1, total_bill_amount := total,
      claim_amount := claimAmt, patient_payable_amount := payable1,
      balance_amount := max 0 (approved - settled),
      outstanding_amount := max 0 (approved - settled),
      claim_status := status, claim_number := claim_number }
  else
    { approved_amount := approved, settled_amount := settled,
      rejected_amount := rejected1, total_bill_amount := total,
      claim_amount := claimAmt, patient_payable_amount := payable1,
      balance_amount := max 0 (approved - settled),
      outstanding_amount := max 0 (approved - settled),
      claim_status := status, claim_number := claim_number }

/-- The payment-advice keyword set (ai_extractor.py lines 146-164). -/
def payment_keywords : List String :=
  ["payment advice", "net payable", "utr number", "utr no", "neft", "rtgs",
   "amount disbursed", "payment made", "transaction reference", "remittance advice",
   "payment processed", "amount paid", "eft", "electronic fund transfer",
   "payment reference", "paid to hospital", "successfully settled"]

/-- `override_status_for_payment_advice` (ai_extractor.py lines 134-184): if
any payment keyword occurs in the lowercased text, or both "payment" and
"advice" occur, the status is forced to "Settled". The guard
`if not data or not text` is modeled on the text side; a draft structure is
never the falsy empty dict. -/
def override_status_for_payment_advice (d : RawDraft) (text : String) : RawDraft :=
  if text = "" then d
  else
    let lower_text := pyLower text
    let has_payment := pyIn "payment" lower_text
    let has_advice := pyIn "advice" lower_text
    if payment_keywords.any (fun k => pyIn k lower_text) || (has_payment && has_advice) then
      { d with claim_status := "Settled" }
    else d

/-- Post-processing of a validated draft on the primary (OpenAI) extraction
path (ai_extractor.py lines 274-277): the payment-advice override, then the
financial formulas. -/
def openai_postprocess (d : RawDraft) (text : String) : RecDraft :=
  apply_financial_formulas (override_status_for_payment_advice d text)

/-- Post-processing of a validated draft on the local-LLM extraction path
(ai_extractor.py lines 318-322): the financial formulas only — this path does
not apply the payment-advice override. -/
def local_llm_postprocess (d : RawDraft) (_text : String) : RecDraft :=
  apply_financial_formulas d

/-- A persisted claim row (db.py lines 22-57). `id` and the wall-clock
`processed_at` column are not modeled; `email_date` carries the timestamp of
the most recent source message. -/
structure ClaimRec where
  email_uid : String
  email_date : Option Int
  patient_name : Option String
  uhid_mrn : Option String
  insurance_company : Option String
  tpa_name : Option String
  claim_number : Option String
  claim_status : Option String
  claim_type : Option String
  claim_date : Option String
  settlement_date : Option String
  submitted_date : Option String
  approved_amount : ℚ
  settled_amount : ℚ
  rejected_amount : ℚ
  outstanding_amount : ℚ
  total_bill_amount : ℚ
  claim_amount : ℚ
  patient_payable_amount : ℚ
  insurance_coverage_percent : Option ℚ
  balance_amount : ℚ
  remarks : Option String
  tat_followup_date : Option String
deriving DecidableEq, Inhabited

/-- A reconciled extracted draft as consumed by `process_single_email`: the
financial component `fin` (as produced by `apply_financial_formulas`) plus the
remaining draft fields, which reconciliation's text/date sanitation steps
produce and the merge reads as given. -/
structure Draft where
  fin : RecDraft
  patient_name : Option String
  uhid_mrn : Option String
  insurance_company : Option String
  tpa_name : Option String
  claim_type : Option String
  claim_date : Option String
  settlement_date : Option String
  submitted_date : Option String
  insurance_coverage_percent : Option ℚ
  remarks : Option String
  tat_followup_date : Option String
deriving DecidableEq

/-- A claim-history row (db.py lines 59-73); `id` and `created_at` are not
modeled. -/
structure HistoryRec where
  claim_number : Option String
  email_uid : String
  email_date : Int
  amount_received : ℚ
  total_settled_so_far : ℚ
  status : Option String
  remarks : String
deriving DecidableEq

/-- A processing-log row (db.py lines 76-83); `id` and `timestamp` are not
modeled. -/
structure LogRec where
  email_subject : String
  status : String
  error_message : Option String
deriving DecidableEq

/-- The store state a worker reads and writes: the claims table, the
claim-history table and the processing log, each as an append-ordered list. -/
structure ProcState where
  claims : List ClaimRec
  history : List HistoryRec
  logs : List LogRec
deriving DecidableEq

/-- Python truthiness of a string-or-null value: null and "" are falsy. -/
def truthy : Option String → Bool
  | Option.none => false
  | some s => !(s == "")

/-- Python `new or old` on string-or-null fields. -/
def pyOr (new old : Option String) : Option String :=
  if truthy new then new else old

/-- The upsert match of `process_single_email` (email_reader.py lines
170-186): first by message UID, then by (truthy) claim number, then by
patient name and UHID both truthy. Returns the index of the first matching
row of the claims table. -/
def matchIdx (claims : List ClaimRec) (uid : String)
    (claim_no p_name uhid : Option String) : Option Nat :=
  match claims.findIdx? (fun c => c.email_uid == uid) with
  | some i => some i
  | Option.none =>
    match (if truthy claim_no then
             claims.findIdx? (fun c => c.claim_number == claim_no)
           else Option.none) with
    | some i => some i
    | Option.none =>
      if truthy p_name && truthy uhid then
        claims.findIdx? (fun c => c.patient_name == p_name && c.uhid_mrn == uhid)
      else Option.none

/-- The staleness test (email_reader.py line 190): the matched record stores a
message date and the incoming message is strictly older. -/
def isStale (ex : ClaimRec) (email_date : Int) : Bool :=
  match ex.email_date with
  | some t => email_date < t
  | Option.none => false

/-- The claim-number garbage tokens of the merge (email_reader.py line 221). -/
def known_garbage_nos : List String :=
  ["erence", "gross", "none", "null", "unknown", "ref", "clm"]

/-- The field-by-field merge of a reconciled draft into a matched record
(email_reader.py lines 197-256). `p_name` is the possibly-placeholder patient
name computed by the caller. The financial update loop (lines 246-252) covers
exactly the eight listed amount fields — `claim_amount` is not among them and
is left untouched. `processed_at` (wall clock) is not modeled. -/
def mergeClaim (uid : String) (email_date : Int) (d : Draft) (p_name : Option String)
    (ex : ClaimRec) : ClaimRec :=
  let patient_name :=
    if truthy p_name && !(p_name == ex.patient_name) then p_name else ex.patient_name
  let insurance_company := pyOr d.insurance_company ex.insurance_company
  let curr_claim_no := pyLower ((ex.claim_number).getD "")
  let claim_number :=
    match d.fin.claim_number with
    | some n =>
      if n ≠ "" ∧ pyLower n ∉ ["none", "n/a", "null", ""] then some n
      else if curr_claim_no ∈ known_garbage_nos ∨ pyLen curr_claim_no < 4 then Option.none
      else ex.claim_number
    | Option.none =>
      if curr_claim_no ∈ known_garbage_nos ∨ pyLen curr_claim_no < 4 then Option.none
      else ex.claim_number
  let tpa_name :=
    if truthy d.tpa_name then d.tpa_name
    else if !(truthy ex.tpa_name) then insurance_company
    else ex.tpa_name
  { email_uid := uid
    email_date := some email_date
    patient_name := patient_name
    uhid_mrn := pyOr d.uhid_mrn ex.uhid_mrn
    insurance_company := insurance_company
    tpa_name := tpa_name
    claim_number := claim_number
    claim_status := if d.fin.claim_status = "" then ex.claim_status
                    else some d.fin.claim_status
    claim_type := pyOr d.claim_type ex.claim_type
    claim_date := pyOr d.claim_date ex.claim_date
    settlement_date := pyOr d.settlement_date ex.settlement_date
    submitted_date := pyOr d.submitted_date ex.submitted_date
    approved_amount :=
      if d.fin.approved_amount ≠ 0 then d.fin.approved_amount else ex.approved_amount
    settled_amount :=
      if d.fin.settled_amount ≠ 0 then d.fin.settled_amount else ex.settled_amount
    rejected_amount :=
      if d.fin.rejected_amount ≠ 0 then d.fin.rejected_amount else ex.rejected_amount
    outstanding_amount :=
      if d.fin.outstanding_amount ≠ 0 then d.fin.outstanding_amount else ex.outstanding_amount
    total_bill_amount :=
      if d.fin.total_bill_amount ≠ 0 then d.fin.total_bill_amount else ex.total_bill_amount
    claim_amount := ex.claim_amount
    patient_payable_amount :=
      if d.fin.patient_payable_amount ≠ 0 then d.fin.patient_payable_amount
      else ex.patient_payable_amount
    insurance_coverage_percent :=
      match d.insurance_coverage_percent with
      | some q => if q ≠ 0 then some q else ex.insurance_coverage_percent
      | Option.none => ex.insurance_coverage_percent
    balance_amount :=
      if d.fin.balance_amount ≠ 0 then d.fin.balance_amount else ex.balance_amount
    remarks := pyOr d.remarks ex.remarks
    tat_followup_date := pyOr d.tat_followup_date ex.tat_followup_date }

/-- The history row appended after a merge (email_reader.py lines 269-279):
written from the already-updated record plus the draft's settled amount. -/
def mkUpdateHistory (uid : String) (email_date : Int) (d : Draft)
    (upd : ClaimRec) : HistoryRec :=
  { claim_number := upd.claim_number
    email_uid := uid
    email_date := email_date
    amount_received := d.fin.settled_amount
    total_settled_so_far := upd.settled_amount
    status := upd.claim_status
    remarks := "Update: " ++ ((d.remarks).getD "None") }

/-- The record created for an unmatched draft (email_reader.py lines 297-322).
The constructor passes no `claim_amount`, so the column default 0.0
(db.py line 49) applies. -/
def mkNewClaim (uid : String) (email_date : Int) (d : Draft)
    (p_name : Option String) : ClaimRec :=
  { email_uid := uid
    email_date := some email_date
    patient_name := p_name
    uhid_mrn := d.uhid_mrn
    insurance_company := d.insurance_company
    tpa_name := pyOr d.tpa_name d.insurance_company
    claim_number := d.fin.claim_number
    claim_status := some d.fin.claim_status
    claim_type := pyOr d.claim_type (some "General")
    claim_date := d.claim_date
    settlement_date := d.settlement_date
    submitted_date := d.submitted_date
    approved_amount := d.fin.approved_amount
    settled_amount := d.fin.settled_amount
    rejected_amount := d.fin.rejected_amount
    outstanding_amount := d.fin.outstanding_amount
    total_bill_amount := d.fin.total_bill_amount
    claim_amount := 0
    patient_payable_amount := d.fin.patient_payable_amount
    insurance_coverage_percent := d.insurance_coverage_percent
    balance_amount := d.fin.balance_amount
    remarks := d.remarks
    tat_followup_date := d.tat_followup_date }

/-- Patient-name missing test of the initial validation (email_reader.py line
157): `not p_name or str(p_name).lower() in ["none","null","unknown",""]`. -/
def pnameMissing (p : Option String) : Bool :=
  match p with
  | Option.none => true
  | some s => (s == "") || ["none", "null", "unknown", ""].contains (pyLower s)

/-- The possibly-placeholder patient name (email_reader.py lines 165-168): a
missing patient name is replaced by the bulk-claim placeholder once the draft
has survived the initial validation. -/
def placeholderName (p : Option String) : Option String :=
  if pnameMissing p then some " Hospital Payment / Bulk Claim" else p

/-- The merged record written over the matched row: the merge applied to the
draft, the possibly-placeholder patient name, and the matched row `i` of the
claims table. -/
def updatedRec (uid : String) (email_date : Int) (d : Draft) (st : ProcState)
    (i : Nat) : ClaimRec :=
  mergeClaim uid email_date d (placeholderName d.patient_name) (st.claims.getD i default)

/-- The post-extraction portion of `process_single_email` (email_reader.py
lines 147-352) as a transition on the store state, for one message with
identifier `uid`, subject `subject`, timestamp `email_date` and extraction
result `extracted` (null when every extraction strategy failed). Email/IMAP
parsing, attachment handling, and the outer exception handler (which appends
an Error log) are outside the model. -/
def process_single_email (uid subject : String) (email_date : Int)
    (extracted : Option Draft) (st : ProcState) : ProcState :=
  match extracted with
  | Option.none =>
    { st with logs := st.logs ++ [{ email_subject := subject, status := "Failed",
                                    error_message := some "AI Extraction returned empty" }] }
  | some d =>
    if pnameMissing d.patient_name && !(truthy d.fin.claim_number) then
      { st with logs := st.logs ++ [{ email_subject := subject, status := "Skipped",
                                      error_message := some "No Patient Name (Validation Failed)" }] }
    else
      match matchIdx st.claims uid d.fin.claim_number (placeholderName d.patient_name)
              d.uhid_mrn with
      | some i =>
        if isStale (st.claims.getD i default) email_date then
          { st with logs := st.logs ++ [{ email_subject := subject, status := "Skipped",
                                          error_message := some "Newer data exists" }] }
        else
          { claims := st.claims.set i (updatedRec uid email_date d st i)
            history :=
              if st.history.any (fun h =>
                   (h.claim_number == (updatedRec uid email_date d st i).claim_number) &&
                   (h.email_uid == uid)) then
                st.history
              else st.history ++ [mkUpdateHistory uid email_date d (updatedRec uid email_date d st i)]
            logs := st.logs ++ [{ email_subject := subject, status := "Success",
                                  error_message := Option.none }] }
      | Option.none =>
        if !(truthy d.fin.claim_number) &&
           (!(truthy (placeholderName d.patient_name)) || !(truthy d.uhid_mrn)) then
          st
        else if !(truthy d.fin.claim_number && (d.fin.claim_status == "Settled"))
                && (!(truthy (placeholderName d.patient_name)) && !(truthy d.uhid_mrn)) then
          st
        else
          { claims := st.claims ++ [mkNewClaim uid email_date d (placeholderName d.patient_name)]
            history := st.history ++
              [{ claim_number := (mkNewClaim uid email_date d (placeholderName d.patient_name)).claim_number
                 email_uid := uid
                 email_date := email_date
                 amount_received := (mkNewClaim uid email_date d (placeholderName d.patient_name)).settled_amount
                 total_settled_so_far := (mkNewClaim uid email_date d (placeholderName d.patient_name)).settled_amount
                 status := (mkNewClaim uid email_date d (placeholderName d.patient_name)).claim_status
                 remarks := "Initial Create" }]
            logs := st.logs ++ [{ email_subject := subject, status := "Success",
                                  error_message := Option.none }] }

/-- A draft as extracted: status Pending, total bill 10000, approved 8000. -/
def pendingDraft : RawDraft :=
  { approved_amount := PyVal.num 8000, settled_amount := PyVal.num 0,
    rejected_amount := PyVal.num 0, total_bill_amount := PyVal.num 10000,
    claim_amount := PyVal.num 0, patient_payable_amount := PyVal.num 0,
    balance_amount := PyVal.num 0, outstanding_amount := PyVal.num 0,
    claim_status := "Pending", claim_number := Option.none }

/-- A draft as extracted: status Settled, total bill 10000, settled 9000. -/
def settledDraft : RawDraft :=
  { approved_amount := PyVal.num 0, settled_amount := PyVal.num 9000,
    rejected_amount := PyVal.num 0, total_bill_amount := PyVal.num 10000,
    claim_amount := PyVal.num 0, patient_payable_amount := PyVal.num 0,
    balance_amount := PyVal.num 0, outstanding_amount := PyVal.num 0,
    claim_status := "Settled", claim_number := Option.none }

/-- A draft whose extraction determined status "Approved". -/
def approvedZeroDraft : RawDraft :=
  { approved_amount := PyVal.num 0, settled_amount := PyVal.num 0,
    rejected_amount := PyVal.num 0, total_bill_amount := PyVal.num 0,
    claim_amount := PyVal.num 0, patient_payable_amount := PyVal.num 0,
    balance_amount := PyVal.num 0, outstanding_amount := PyVal.num 0,
    claim_status := "Approved", claim_number := Option.none }

/-- A stored claim row: matched by message UID "9", last message timestamp
100, settled 500, claim amount 3, balance 2000. -/
def storedRec : ClaimRec :=
  { email_uid := "9", email_date := some 100, patient_name := some "John Doe",
    uhid_mrn := some "UH1", insurance_company := Option.none, tpa_name := Option.none,
    claim_number := some "CLM12345", claim_status := some "Approved",
    claim_type := Option.none, claim_date := Option.none, settlement_date := Option.none,
    submitted_date := Option.none, approved_amount := 8000, settled_amount := 500,
    rejected_amount := 0, outstanding_amount := 0, total_bill_amount := 10000,
    claim_amount := 3, patient_payable_amount := 0,
    insurance_coverage_percent := Option.none, balance_amount := 2000,
    remarks := Option.none, tat_followup_date := Option.none }

/-- An incoming reconciled draft for the same claim: settled 0 (reported
zero), claim amount 7 (nonzero). -/
def mergeDraft : Draft :=
  { fin := { approved_amount := 0, settled_amount := 0, rejected_amount := 0,
             total_bill_amount := 0, claim_amount := 7, patient_payable_amount := 0,
             balance_amount := 0, outstanding_amount := 0, claim_status := "Approved",
             claim_number := some "CLM12345" }
    patient_name := some "John Doe", uhid_mrn := Option.none,
    insurance_company := Option.none, tpa_name := Option.none, claim_type := Option.none,
    claim_date := Option.none, settlement_date := Option.none,
    submitted_date := Option.none, insurance_coverage_percent := Option.none,
    remarks := Option.none, tat_followup_date := Option.none }

/-- An extracted draft with a patient name but no claim number and no UHID. -/
def noIdDraft : Draft :=
  { fin := { approved_amount := 0, settled_amount := 0, rejected_amount := 0,
             total_bill_amount := 0, claim_amount := 0, patient_payable_amount := 0,
             balance_amount := 0, outstanding_amount := 0, claim_status := "Pending",
             claim_number := Option.none }
    patient_name := some "John Doe", uhid_mrn := Option.none,
    insurance_company := Option.none, tpa_name := Option.none, claim_type := Option.none,
    claim_date := Option.none, settlement_date := Option.none,
    submitted_date := Option.none, insurance_coverage_percent := Option.none,
    remarks := Option.none, tat_followup_date := Option.none }

/-- A draft as extracted for storedRecʼs claim: status Settled, total bill
10000, settled 9000, claim number CLM12345. -/
def rawSettledDraft : RawDraft :=
  { approved_amount := PyVal.num 0, settled_amount := PyVal.num 9000,
    rejected_amount := PyVal.num 0, total_bill_amount := PyVal.num 10000,
    claim_amount := PyVal.num 0, patient_payable_amount := PyVal.num 0,
    balance_amount := PyVal.num 0, outstanding_amount := PyVal.num 0,
    claim_status := "Settled", claim_number := some "CLM12345" }

/-- The reconciled incoming draft built from `rawSettledDraft`. -/
def settledIncomingDraft : Draft :=
  { fin := apply_financial_formulas rawSettledDraft,
    patient_name := some "John Doe", uhid_mrn := Option.none,
    insurance_company := Option.none, tpa_name := Option.none, claim_type := Option.none,
    claim_date := Option.none, settlement_date := Option.none,
    submitted_date := Option.none, insurance_coverage_percent := Option.none,
    remarks := Option.none, tat_followup_date := Option.none }

/-- The financial formulas never write `claim_status`. -/
theorem apply_financial_formulas_claim_status (d : RawDraft) :
    (apply_financial_formulas d).claim_status = d.claim_status := by
  show (if d.claim_status = "Pending" then _ else _ : RecDraft).claim_status = d.claim_status
  repeat' split
  all_goals rfl

/-- A successful parse of a digits-and-dots string is non-negative. -/
theorem floatOfDigitsAndDots_nonneg (l : List Char) (q : ℚ)
    (h : floatOfDigitsAndDots l = some q) : 0 ≤ q := by
  unfold floatOfDigitsAndDots at h
  split at h
  · split at h
    · rw [Option.some_inj] at h
      subst h
      positivity
    · rw [Option.some_inj] at h
      subst h
      positivity
    · exact absurd h (by simp)
  · exact absurd h (by simp)

/-- The coercion of a string-valued financial field is non-negative. -/
theorem normalizeFinancial_str_nonneg (s : String) :
    0 ≤ normalizeFinancial (PyVal.str s) := by
  simp only [normalizeFinancial]
  split
  · exact le_refl 0
  · split
    · next q hq => exact floatOfDigitsAndDots_nonneg _ q hq
    · exact le_refl 0

/-- After the initial validation the (possibly placeholder) patient name is
always truthy: a missing name was replaced by the non-empty placeholder, and a
non-missing name is a non-empty string. -/
theorem truthy_placeholderName (p : Option String) : truthy (placeholderName p) = true := by
  unfold placeholderName
  split
  · decide
  · next h =>
    match p with
    | Option.none => exact absurd rfl h
    | some s =>
      simp only [pnameMissing, Bool.or_eq_true, not_or] at h
      obtain ⟨h1, _⟩ := h
      simp only [truthy, Bool.not_eq_true']
      simpa using h1

/-- C1: reconciliation of a draft with status Pending zeroes the approved,
settled, rejected and patient-payable amounts and sets the balance to the
(backfilled) total bill amount. -/
theorem pending_zeroes_amounts (d : RawDraft) (h : d.claim_status = "Pending") :
    (apply_financial_formulas d).approved_amount = 0 ∧
    (apply_financial_formulas d).settled_amount = 0 ∧
    (apply_financial_formulas d).rejected_amount = 0 ∧
    (apply_financial_formulas d).patient_payable_amount = 0 ∧
    (apply_financial_formulas d).balance_amount =
      (apply_financial_formulas d).total_bill_amount := by
  simp [apply_financial_formulas, h]

/-- Witness for C1: status Pending, total bill 10000, extracted approved 8000
reconciles to approved 0, settled 0, rejected 0, patient payable 0 and
balance 10000. -/
theorem pending_zeroes_amounts_witness :
    ((apply_financial_formulas pendingDraft).approved_amount = 0 ∧
     (apply_financial_formulas pendingDraft).settled_amount = 0 ∧
     (apply_financial_formulas pendingDraft).rejected_amount = 0 ∧
     (apply_financial_formulas pendingDraft).patient_payable_amount = 0 ∧
     (apply_financial_formulas pendingDraft).balance_amount =
       (apply_financial_formulas pendingDraft).total_bill_amount) ∧
    (apply_financial_formulas pendingDraft).balance_amount = 10000 :=
  ⟨pending_zeroes_amounts pendingDraft rfl,
   by norm_num [apply_financial_formulas, normalizeFinancial, pendingDraft]⟩

/-- C2: reconciliation of a draft with status Settled sets the balance to 0,
the patient payable to `max 0 (total_bill - settled)`, and the outstanding
amount to the balance. -/
theorem settled_balance_zero (d : RawDraft) (h : d.claim_status = "Settled") :
    (apply_financial_formulas d).balance_amount = 0 ∧
    (apply_financial_formulas d).patient_payable_amount =
      max 0 ((apply_financial_formulas d).total_bill_amount -
             (apply_financial_formulas d).settled_amount) ∧
    (apply_financial_formulas d).outstanding_amount =
      (apply_financial_formulas d).balance_amount := by
  simp [apply_financial_formulas, h]

/-- Witness for C2: status Settled, total bill 10000, settled 9000 reconciles
to balance 0 and patient payable 1000. -/
theorem settled_balance_zero_witness :
    ((apply_financial_formulas settledDraft).balance_amount = 0 ∧
     (apply_financial_formulas settledDraft).patient_payable_amount =
       max 0 ((apply_financial_formulas settledDraft).total_bill_amount -
              (apply_financial_formulas settledDraft).settled_amount) ∧
     (apply_financial_formulas settledDraft).outstanding_amount =
       (apply_financial_formulas settledDraft).balance_amount) ∧
    (apply_financial_formulas settledDraft).patient_payable_amount = 1000 :=
  ⟨settled_balance_zero settledDraft rfl, by
    norm_num [apply_financial_formulas, normalizeFinancial, settledDraft]
    simp⟩

/-- C3 counterexample: the financial coercion is not non-negative on every
input — a negative numeric value passes through `float(val)` unchanged, so
`normalizeFinancial(-5)` is `-5 < 0`. -/
theorem normalize_financial_negative_input :
    normalizeFinancial (PyVal.num (-5)) = -5 ∧
    ¬ 0 ≤ normalizeFinancial (PyVal.num (-5)) := by
  refine ⟨rfl, ?_⟩
  norm_num [normalizeFinancial]

/-- C3 amended: the financial coercion is idempotent on every input
(re-coercing its numeric result returns it unchanged), and it is non-negative
for string and null inputs; a numeric input passes through unchanged, so the
result is non-negative only when the number itself is. -/
theorem normalize_financial_nonneg_idempotent :
    (∀ v : PyVal, normalizeFinancial (PyVal.num (normalizeFinancial v)) = normalizeFinancial v) ∧
    (∀ s : String, 0 ≤ normalizeFinancial (PyVal.str s)) ∧
    normalizeFinancial PyVal.none = 0 ∧
    (∀ q : ℚ, normalizeFinancial (PyVal.num q) = q) :=
  ⟨fun _ => rfl, normalizeFinancial_str_nonneg, rfl, fun _ => rfl⟩

/-- C6 counterexample: "12" is purely numeric, so the short-value rejection
(`len < 4 and not isdigit`) does not apply and it passes through as "12"; the
claim asserts `cleanClaimNumber("12") == null`. The empty string, also shorter
than 4 characters and not purely numeric, is likewise returned unchanged by
the `if not claim_no` guard rather than rejected. -/
theorem clean_claim_number_numeric_short :
    clean_claim_number "12" = some "12" ∧ clean_claim_number "" = some "" := by
  constructor <;> decide

/-- C6 amended: `clean_claim_number` returns null for every trimmed,
lowercased denylist token and for every non-empty value shorter than 4
characters that is not purely numeric; every other non-empty string passes
through trimmed. In particular "Gross" and "erence" are rejected, "ABC123"
and "1234" pass, and the purely numeric short value "12" passes through as
"12" (not null). -/
theorem clean_claim_number_spec :
    (∀ s : String, pyLower (pyTrim s) ∈ junk_values → clean_claim_number s = Option.none) ∧
    (∀ s : String, s ≠ "" → pyLen (pyLower (pyTrim s)) < 4 →
      pyIsDigit (pyLower (pyTrim s)) = false → clean_claim_number s = Option.none) ∧
    (∀ s : String, s ≠ "" → pyLower (pyTrim s) ∉ junk_values →
      ¬(pyLen (pyLower (pyTrim s)) < 4 ∧ pyIsDigit (pyLower (pyTrim s)) = false) →
      clean_claim_number s = some (pyTrim s)) ∧
    clean_claim_number "Gross" = Option.none ∧
    clean_claim_number "erence" = Option.none ∧
    clean_claim_number "ABC123" = some "ABC123" ∧
    clean_claim_number "12" = some "12" ∧
    clean_claim_number "1234" = some "1234" := by
  refine ⟨?_, ?_, ?_, by decide, by decide, by decide, by decide, by decide⟩
  · intro s hmem
    have hne : s ≠ "" := by
      intro h
      subst h
      revert hmem
      decide
    simp only [clean_claim_number, if_neg hne]
    rw [if_pos hmem]
  · intro s hne hlen hdig
    simp only [clean_claim_number, if_neg hne]
    by_cases hj : pyLower (pyTrim s) ∈ junk_values
    · rw [if_pos hj]
    · rw [if_neg hj, if_pos ⟨hlen, hdig⟩]
  · intro s hne hj hrej
    simp only [clean_claim_number, if_neg hne]
    rw [if_neg hj, if_neg hrej]

/-- Witness for C6 (amended): a trimmed pass-through value. -/
theorem clean_claim_number_spec_witness :
    clean_claim_number "  XYZ99  " = some "XYZ99" :=
  clean_claim_number_spec.2.2.1 "  XYZ99  " (by decide) (by decide) (by decide)

/-- C10: any text whose lowercasing contains the substring "eft" anywhere —
also inside unrelated words such as "left" — triggers the payment-advice
override: keyword detection is plain substring containment with no
word-boundary check, so the status is forced to "Settled". -/
theorem override_eft_substring (d : RawDraft) (text : String)
    (h : pyIn "eft" (pyLower text) = true) :
    (override_status_for_payment_advice d text).claim_status = "Settled" := by
  have hne : text ≠ "" := by
    intro he
    subst he
    revert h
    decide
  have hany : payment_keywords.any (fun k => pyIn k (pyLower text)) = true := by
    simp only [List.any_eq_true]
    exact ⟨"eft", by decide, h⟩
  unfold override_status_for_payment_advice
  rw [if_neg hne]
  simp [hany]

/-- Witness for C10: "left" contains "eft", so a status the extraction set to
"Approved" is overridden to "Settled". -/
theorem override_eft_substring_witness :
    (override_status_for_payment_advice approvedZeroDraft
      "The patient left the ward yesterday").claim_status = "Settled" :=
  override_eft_substring approvedZeroDraft "The patient left the ward yesterday" (by decide)

/-- C5 counterexample: the payment-advice override is not applied after every
successful extraction. The local-LLM path (and likewise the regex-fallback
path) returns `apply_financial_formulas` on the draft directly, with no
override: here the source text contains the keyword "payment advice" (and
both "payment" and "advice"), yet the returned status is the extraction's own
"Approved", not "Settled". -/
theorem local_llm_no_override :
    pyIn "payment advice" (pyLower "Subject: Payment Advice for claim CLM12") = true ∧
    (local_llm_postprocess approvedZeroDraft
      "Subject: Payment Advice for claim CLM12").claim_status = "Approved" := by
  refine ⟨by decide, ?_⟩
  rw [local_llm_postprocess, apply_financial_formulas_claim_status]
  rfl

/-- C5 amended: only the primary (OpenAI) extraction path applies the
payment-advice scan; after a successful primary extraction, a keyword match
(or "payment" and "advice" both occurring) forces the returned status to
"Settled", overriding whatever the extraction determined. The local-LLM and
regex-fallback paths return without the override. -/
theorem openai_override_settled (d : RawDraft) (text : String)
    (hne : text ≠ "")
    (h : (payment_keywords.any (fun k => pyIn k (pyLower text)) ||
          (pyIn "payment" (pyLower text) && pyIn "advice" (pyLower text))) = true) :
    (openai_postprocess d text).claim_status = "Settled" := by
  unfold openai_postprocess
  rw [apply_financial_formulas_claim_status]
  unfold override_status_for_payment_advice
  rw [if_neg hne]
  simp [h]

/-- Witness for C5 (amended): the primary path forces "Settled" on a
payment-advice text even though the extraction said "Approved". -/
theorem openai_override_settled_witness :
    (openai_postprocess approvedZeroDraft
      "Subject: Payment Advice for claim CLM12").claim_status = "Settled" :=
  openai_override_settled approvedZeroDraft "Subject: Payment Advice for claim CLM12"
    (by decide) (by decide)

/-- C7 counterexample: the Skipped log appended for a stale message carries
the reason string "Newer data exists" (capital N), not the claim's literal
"newer data exists". -/
theorem stale_skip_message_capitalized :
    (process_single_email "9" "Re: Claim ABC1" 50 (some mergeDraft)
        { claims := [storedRec], history := [], logs := [] }).logs =
      [{ email_subject := "Re: Claim ABC1", status := "Skipped",
         error_message := some "Newer data exists" }] ∧
    ("Newer data exists" : String) ≠ "newer data exists" := by
  constructor <;> decide

/-- C7 amended: an incoming message that matches an existing record and is
strictly older than the record's stored message timestamp leaves the claims
table and the history untouched and appends exactly one ProcessingLog entry,
status "Skipped" with reason "Newer data exists". -/
theorem stale_skip_no_mutation (uid subject : String) (ed : Int) (d : Draft)
    (st : ProcState) (i : Nat)
    (hval : (pnameMissing d.patient_name && !(truthy d.fin.claim_number)) = false)
    (hmatch : matchIdx st.claims uid d.fin.claim_number (placeholderName d.patient_name)
                d.uhid_mrn = some i)
    (hstale : isStale (st.claims.getD i default) ed = true) :
    process_single_email uid subject ed (some d) st =
      { claims := st.claims, history := st.history,
        logs := st.logs ++ [{ email_subject := subject, status := "Skipped",
                              error_message := some "Newer data exists" }] } := by
  simp only [process_single_email, hval, hmatch, hstale]
  simp

/-- Witness for C7 (amended): a message with timestamp 50 against a stored
record whose last message timestamp is 100. -/
theorem stale_skip_no_mutation_witness :
    process_single_email "9" "Re: Claim ABC1" 50 (some mergeDraft)
        { claims := [storedRec], history := [], logs := [] } =
      { claims := [storedRec], history := [],
        logs := [{ email_subject := "Re: Claim ABC1", status := "Skipped",
                   error_message := some "Newer data exists" }] } :=
  stale_skip_no_mutation "9" "Re: Claim ABC1" 50 mergeDraft
    { claims := [storedRec], history := [], logs := [] } 0
    (by decide) (by decide) (by decide)

/-- C8 counterexample: a message whose draft has a patient name but neither a
claim number nor a UHID, and matches no existing record, is discarded with no
ProcessingLog entry at all — not "exactly one per processed message". -/
theorem insufficient_identifiers_no_log :
    process_single_email "3" "FW: Claim" 0 (some noIdDraft)
        { claims := [], history := [], logs := [] } =
      { claims := [], history := [], logs := [] } := by
  decide

/-- C8 amended: every processed message appends at most one ProcessingLog
entry — exactly one (Success, Skipped or Failed) in every path except the
discard of an unmatched draft with no truthy claim number and no truthy UHID
(insufficient identifiers to create a record), which leaves the store, logs
included, unchanged. -/
theorem one_log_except_insufficient_identifiers (uid subject : String) (ed : Int)
    (extracted : Option Draft) (st : ProcState) :
    (∃ e : LogRec,
       (process_single_email uid subject ed extracted st).logs = st.logs ++ [e] ∧
       (e.status = "Success" ∨ e.status = "Skipped" ∨ e.status = "Failed")) ∨
    ((process_single_email uid subject ed extracted st) = st ∧
     ∃ d : Draft, extracted = some d ∧
       truthy d.fin.claim_number = false ∧
       truthy d.uhid_mrn = false ∧
       matchIdx st.claims uid d.fin.claim_number (placeholderName d.patient_name)
         d.uhid_mrn = Option.none) := by
  unfold process_single_email
  split
  · exact Or.inl ⟨{ email_subject := subject, status := "Failed",
                    error_message := some "AI Extraction returned empty" }, rfl,
                  Or.inr (Or.inr rfl)⟩
  · next d =>
    split
    · exact Or.inl ⟨{ email_subject := subject, status := "Skipped",
                      error_message := some "No Patient Name (Validation Failed)" }, rfl,
                    Or.inr (Or.inl rfl)⟩
    · split
      · split
        · exact Or.inl ⟨{ email_subject := subject, status := "Skipped",
                          error_message := some "Newer data exists" }, rfl,
                        Or.inr (Or.inl rfl)⟩
        · exact Or.inl ⟨{ email_subject := subject, status := "Success",
                          error_message := Option.none }, rfl, Or.inl rfl⟩
      · next hm =>
        split
        · next hc1 =>
          simp only [Bool.and_eq_true, Bool.or_eq_true, Bool.not_eq_true'] at hc1
          obtain ⟨h1, h2⟩ := hc1
          rcases h2 with h2 | h2
          · exact absurd h2 (by simp [truthy_placeholderName])
          · exact Or.inr ⟨rfl, d, rfl, h1, h2, hm⟩
        · split
          · next hc2 =>
            simp only [Bool.and_eq_true, Bool.not_eq_true'] at hc2
            exact absurd hc2.2.1 (by simp [truthy_placeholderName])
          · exact Or.inl ⟨{ email_subject := subject, status := "Success",
                            error_message := Option.none }, rfl, Or.inl rfl⟩

/-- C4 counterexample: `claim_amount` is not among the eight fields of the
merge's financial update loop, so a present, nonzero incoming claim amount (7)
does not overwrite the stored value (3) — the claim's "overwritten exactly
when present and non-zero" fails for `claim_amount`. -/
theorem merge_ignores_claim_amount :
    mergeDraft.fin.claim_amount = 7 ∧
    (mergeClaim "9" 200 mergeDraft (some "John Doe") storedRec).claim_amount = 3 ∧
    (3 : ℚ) ≠ 7 := by
  refine ⟨rfl, rfl, by norm_num⟩

/-- C4 amended: in a merge into an existing matched record (match found, not
stale), each of the eight loop fields — approved, settled, rejected,
outstanding, total bill, patient payable, coverage percent and balance — is
overwritten by the incoming value exactly when it is present and nonzero and
kept otherwise; `claim_amount` is outside the loop and is never overwritten,
even by a present nonzero incoming value. -/
theorem merge_overwrites_nonzero_amounts (uid subject : String) (ed : Int) (d : Draft)
    (st : ProcState) (i : Nat)
    (hval : (pnameMissing d.patient_name && !(truthy d.fin.claim_number)) = false)
    (hmatch : matchIdx st.claims uid d.fin.claim_number (placeholderName d.patient_name)
                d.uhid_mrn = some i)
    (hstale : isStale (st.claims.getD i default) ed = false) :
    ∃ upd : ClaimRec,
      (process_single_email uid subject ed (some d) st).claims = st.claims.set i upd ∧
      upd.approved_amount = (if d.fin.approved_amount ≠ 0 then d.fin.approved_amount
                             else (st.claims.getD i default).approved_amount) ∧
      upd.settled_amount = (if d.fin.settled_amount ≠ 0 then d.fin.settled_amount
                            else (st.claims.getD i default).settled_amount) ∧
      upd.rejected_amount = (if d.fin.rejected_amount ≠ 0 then d.fin.rejected_amount
                             else (st.claims.getD i default).rejected_amount) ∧
      upd.outstanding_amount = (if d.fin.outstanding_amount ≠ 0 then d.fin.outstanding_amount
                                else (st.claims.getD i default).outstanding_amount) ∧
      upd.total_bill_amount = (if d.fin.total_bill_amount ≠ 0 then d.fin.total_bill_amount
                               else (st.claims.getD i default).total_bill_amount) ∧
      upd.patient_payable_amount =
        (if d.fin.patient_payable_amount ≠ 0 then d.fin.patient_payable_amount
         else (st.claims.getD i default).patient_payable_amount) ∧
      upd.insurance_coverage_percent =
        (match d.insurance_coverage_percent with
         | some q => if q ≠ 0 then some q
                     else (st.claims.getD i default).insurance_coverage_percent
         | Option.none => (st.claims.getD i default).insurance_coverage_percent) ∧
      upd.balance_amount = (if d.fin.balance_amount ≠ 0 then d.fin.balance_amount
                            else (st.claims.getD i default).balance_amount) ∧
      upd.claim_amount = (st.claims.getD i default).claim_amount := by
  refine ⟨updatedRec uid ed d st i, ?_, rfl, rfl, rfl, rfl, rfl, rfl, rfl, rfl, rfl⟩
  simp only [process_single_email, hval, hmatch, hstale]
  simp

/-- Witness for C4 (amended): the stored settled amount 500 survives an
incoming reported zero, and the stored claim amount 3 survives an incoming
nonzero 7. -/
theorem merge_overwrites_nonzero_amounts_witness :
    ∃ upd : ClaimRec,
      (process_single_email "9" "Re: Claim ABC1" 200 (some mergeDraft)
          { claims := [storedRec], history := [], logs := [] }).claims =
        [storedRec].set 0 upd ∧
      upd.settled_amount = 500 ∧ upd.claim_amount = 3 := by
  obtain ⟨upd, h1, _, h2, _, _, _, _, _, _, h3⟩ :=
    merge_overwrites_nonzero_amounts "9" "Re: Claim ABC1" 200 mergeDraft
      { claims := [storedRec], history := [], logs := [] } 0
      (by decide) (by decide) (by decide)
  refine ⟨upd, h1, ?_, ?_⟩
  · rw [h2]
    decide
  · rw [h3]
    decide

/-- C9: merging a newer draft with status Settled — whose reconciled balance
is 0 by the Settled rule — into a matched record whose stored balance is
nonzero sets the record's status to "Settled" while the zero balance is never
written (zero never overwrites), so the stored record ends up with status
Settled and its previous nonzero balance. -/
theorem settled_merge_keeps_stale_balance (uid subject : String) (ed : Int)
    (raw : RawDraft) (d : Draft) (st : ProcState) (i : Nat)
    (hfin : d.fin = apply_financial_formulas raw)
    (hraw : raw.claim_status = "Settled")
    (hval : (pnameMissing d.patient_name && !(truthy d.fin.claim_number)) = false)
    (hmatch : matchIdx st.claims uid d.fin.claim_number (placeholderName d.patient_name)
                d.uhid_mrn = some i)
    (hstale : isStale (st.claims.getD i default) ed = false)
    (hbal : (st.claims.getD i default).balance_amount ≠ 0) :
    ∃ upd : ClaimRec,
      (process_single_email uid subject ed (some d) st).claims = st.claims.set i upd ∧
      upd.claim_status = some "Settled" ∧
      upd.balance_amount = (st.claims.getD i default).balance_amount ∧
      upd.balance_amount ≠ 0 := by
  have hst : d.fin.claim_status = "Settled" := by
    rw [hfin, apply_financial_formulas_claim_status, hraw]
  have hb0 : d.fin.balance_amount = 0 := by
    rw [hfin]
    simp [apply_financial_formulas, hraw]
  have hupd_bal : (updatedRec uid ed d st i).balance_amount =
      (st.claims.getD i default).balance_amount := by
    simp only [updatedRec, mergeClaim, hb0]
    simp
  refine ⟨updatedRec uid ed d st i, ?_, ?_, hupd_bal, ?_⟩
  · simp only [process_single_email, hval, hmatch, hstale]
    simp
  · simp only [updatedRec, mergeClaim, hst]
    simp
  · rw [hupd_bal]
    exact hbal

/-- Witness for C9: the reconciled Settled draft merged over a stored record
with balance 2000 yields status Settled with balance still 2000. -/
theorem settled_merge_keeps_stale_balance_witness :
    ∃ upd : ClaimRec,
      (process_single_email "9" "Payment Advice CLM12345" 200 (some settledIncomingDraft)
          { claims := [storedRec], history := [], logs := [] }).claims =
        [storedRec].set 0 upd ∧
      upd.claim_status = some "Settled" ∧ upd.balance_amount = 2000 := by
  obtain ⟨upd, h1, h2, h3, _⟩ :=
    settled_merge_keeps_stale_balance "9" "Payment Advice CLM12345" 200 rawSettledDraft
      settledIncomingDraft { claims := [storedRec], history := [], logs := [] } 0
      rfl rfl (by decide) (by decide) (by decide) (by decide)
  refine ⟨upd, h1, h2, ?_⟩
  rw [h3]
  decide

end Insurance
